import Mathlib

/-!
Verification of the LangChain integration scripts
(`langchain/app.py`, `langchain/deploy_aws.py`, `langchain/streamlit_app.py`)
against their natural-language specification.

The Python code is glue around external services.  We embed it shallowly:

* JSON-like request/response payloads become the inductive `JValue`;
* the external LLM calls (`conversation.predict`, `retrieval_qa.run`,
  document loading, Chroma construction) become explicit oracle parameters
  returning `Except String _` — `.error e` models a raised Python exception
  carrying message `e`;
* a Python function that may let an exception escape returns `Outcome α`;
  handlers whose `try/except` converts every exception into an HTTP error
  response always produce `Outcome.returns`.
-/

set_option autoImplicit false

namespace LangChainRepo

/-- A JSON-like value, used for request bodies, lambda events and responses. -/
inductive JValue where
  | jnull
  | jstr (s : String)
  | jnum (n : Int)
  | jobj (fields : List (String × JValue))

/-- Python `dict.get(key)`: the value at `key`, or `None` (here `none`)
when the key is absent.  Lookup of the first matching key. -/
def jget (j : JValue) (k : String) : Option JValue :=
  match j with
  | .jobj fields => (fields.find? (fun p => p.1 == k)).map (fun p => p.2)
  | _ => none

/-- Python `dict.get(key, default)`: the stored value when the key is
present (even if it is `null`), otherwise the default. -/
def jgetD (j : JValue) (k : String) (d : JValue) : JValue :=
  (jget j k).getD d

/-- JSON string escaping as performed by `json.dumps` (only the escapes
needed for the payloads at hand: backslash and double quote). -/
def jsonEscapeChar (c : Char) : String :=
  if c = '\\' then "\\\\"
  else if c = '"' then "\\\""
  else String.singleton c

def jsonEscape (s : String) : String :=
  String.join (s.toList.map jsonEscapeChar)

mutual

/-- `json.dumps` with its default separators `", "` and `": "`. -/
def renderJ : JValue → String
  | .jnull => "null"
  | .jstr s => "\"" ++ jsonEscape s ++ "\""
  | .jnum n => toString n
  | .jobj fields => "\x7b" ++ String.intercalate ", " (renderFields fields) ++ "\x7d"

def renderFields : List (String × JValue) → List String
  | [] => []
  | (k, v) :: rest => ("\"" ++ jsonEscape k ++ "\": " ++ renderJ v) :: renderFields rest

end

/-- Result of running a Python function body: either a normal return value
or an exception that escaped the function uncaught. -/
inductive Outcome (α : Type) where
  | returns (a : α)
  | raises (e : String)

def Outcome.isReturns {α : Type} : Outcome α → Bool
  | .returns _ => true
  | .raises _ => false

/-- What a FastAPI route hands back to the framework: a 200 response with a
JSON body, or an `HTTPException(status_code, detail)`. -/
inductive HResp where
  | ok (body : JValue)
  | httpError (status : Nat) (detail : String)

/-- The HTTP status an outcome translates to (`none` when an exception
escaped, i.e. the framework produced no status on the handler's behalf). -/
def respStatus : Outcome HResp → Option Nat
  | .returns (.ok _) => some 200
  | .returns (.httpError s _) => some s
  | .raises _ => none

/-- `ConversationBufferMemory` contents: ordered (input, output) turns.
Only its identity matters to this code; it is threaded, never inspected. -/
def Memory := List (String × String)

def Memory.empty : Memory := []

/-- Oracle for `conversation.predict(input=...)` : from the current memory
and the input object, an exception or the model response together with the
updated memory. -/
def PredictOracle := Memory → JValue → Except String (String × Memory)

/-- Oracle for `retrieval_qa.run(query)`. -/
def RetrievalOracle := String → Except String String

namespace App

/-- `app = FastAPI(title="LangChain API", version="1.0")`. -/
def app_version : String := "1.0"

/-- `ChatRequest(BaseModel)`: `message: str`,
`session_id: Optional[str] = "default"`. -/
structure ChatRequest where
  message : String
  session_id : Option String
deriving DecidableEq, Repr

/-- `QueryRequest(BaseModel)`: `query: str`. -/
structure QueryRequest where
  query : String
deriving DecidableEq, Repr

/-- Pydantic validation of a `ChatRequest` from a JSON body: `message`
must be a string; an omitted `session_id` takes the default `"default"`,
an explicit `null` stays `None`, a string stays itself; anything else is
a validation error (`none`). -/
def parseChatRequest (j : JValue) : Option ChatRequest :=
  match jget j "message" with
  | some (.jstr m) =>
    match jget j "session_id" with
    | none => some ⟨m, some "default"⟩
    | some .jnull => some ⟨m, none⟩
    | some (.jstr s) => some ⟨m, some s⟩
    | some _ => none
  | _ => none

/-- FastAPI serialization of an optional string field. -/
def jOfOpt : Option String → JValue
  | none => .jnull
  | some s => .jstr s

/-- The process environment and filesystem facts module init reads. -/
structure Env where
  openai_api_key : Option String
  data_dir_exists : Bool
deriving DecidableEq, Repr

/-- `if not os.environ.get("OPENAI_API_KEY")`: falsy when unset or empty. -/
def keyPresent (env : Env) : Bool :=
  match env.openai_api_key with
  | none => false
  | some s => !s.isEmpty

/-- A document produced by `DirectoryLoader("data", glob="**/*.txt").load()`:
its text (as a character list) and its source path. -/
structure Document where
  page_content : List Char
  source : String

/-- `chunk_size=1000` passed to the splitter. -/
def chunk_size : Nat := 1000

/-- `chunk_overlap=100` passed to the splitter. -/
def chunk_overlap : Nat := 100

/-- Modelled from the spec: the Chunk Splitter "breaks loaded documents into
overlapping fixed-size text windows"; the implementation
(`RecursiveCharacterTextSplitter(chunk_size=1000, chunk_overlap=100)`)
is third-party library code not in this repository.  A window of
`chunk_size` characters is emitted and the cursor advances by
`chunk_size - chunk_overlap`, so consecutive windows share
`chunk_overlap` characters; a remainder of at most `chunk_size`
characters is emitted whole. -/
def splitText (s : List Char) : List (List Char) :=
  if h : s.length ≤ chunk_size then [s]
  else
    s.take chunk_size :: splitText (s.drop (chunk_size - chunk_overlap))
termination_by s.length
decreasing_by
  simp only [List.length_drop, chunk_size, chunk_overlap] at h ⊢
  omega

/-- `text_splitter.split_documents(documents)`: every document split into
chunks, in document order. -/
def split_documents (docs : List Document) : List (List Char) :=
  (docs.map (fun d => splitText d.page_content)).flatten

/-- The persisted Chroma collection; only its presence matters to the
routes, so we record the texts it was built from. -/
structure VectorStore where
  texts : List (List Char)

/-- Oracle for the fallible external steps of the vector-store block:
`DirectoryLoader(...).load()`. -/
def LoaderOracle := Except String (List Document)

/-- Oracle for `OpenAIEmbeddings()` plus
`Chroma.from_documents(texts, embeddings, persist_directory="chroma_db")`. -/
def ChromaOracle := List (List Char) → Except String VectorStore

/-- The body of the `try:` block guarding vector-store initialization
(lines 50-68): load the documents, split them, build the store. -/
def vectorStoreTry (load : LoaderOracle) (chroma : ChromaOracle) :
    Except String VectorStore :=
  match load with
  | .error e => .error e
  | .ok docs => chroma (split_documents docs)

/-- Module state once `app.py` finished importing. -/
structure AppState where
  memory : Memory
  vector_store : Option VectorStore

/-- Result of importing the module: the process either starts serving with
this state, or dies with an uncaught startup exception. -/
inductive Startup where
  | started (st : AppState)
  | failed_to_start (err : String)

/-- Module-level initialization of `app.py` (lines 30-70): the API-key
check raises `ValueError` when the key is falsy; otherwise memory starts
empty and, when the `data` directory exists, the vector store is built
inside a `try:` whose exception is only printed, leaving
`vector_store = None`. -/
def moduleInit (env : Env) (load : LoaderOracle) (chroma : ChromaOracle) :
    Startup :=
  if keyPresent env = false then
    .failed_to_start "OPENAI_API_KEY environment variable is not set"
  else if env.data_dir_exists then
    match vectorStoreTry load chroma with
    | .ok vs => .started ⟨Memory.empty, some vs⟩
    | .error _ => .started ⟨Memory.empty, none⟩
  else .started ⟨Memory.empty, none⟩

/-- `GET /health` (lines 85-87): always the literal healthy payload. -/
def health_check : Outcome HResp :=
  .returns (.ok (.jobj [("status", .jstr "healthy"), ("version", .jstr app_version)]))

/-- `POST /chat` (lines 89-95): `conversation.predict(input=request.message)`
inside `try/except` — any exception becomes `HTTPException(500, str(e))`,
success echoes the request's `session_id`. -/
def chat (predict : PredictOracle) (mem : Memory) (req : ChatRequest) :
    Outcome (HResp × Memory) :=
  match predict mem (.jstr req.message) with
  | .ok (resp, mem') =>
    .returns (.ok (.jobj [("response", .jstr resp), ("session_id", jOfOpt req.session_id)]), mem')
  | .error e => .returns (.httpError 500 e, mem)

/-- `POST /query` (lines 97-106): `HTTPException(400, ...)` when
`not vector_store`; otherwise `retrieval_qa.run(request.query)` inside
`try/except`, any exception becoming `HTTPException(500, str(e))`. -/
def query (run : RetrievalOracle) (st : AppState) (req : QueryRequest) :
    Outcome HResp :=
  match st.vector_store with
  | none => .returns (.httpError 400 "Vector store not initialized")
  | some _ =>
    match run req.query with
    | .ok resp => .returns (.ok (.jobj [("response", .jstr resp)]))
    | .error e => .returns (.httpError 500 e)

/-- `lambda_handler` in `app.py` (lines 109-122): reads `message` and
`session_id` with defaults, calls `conversation.predict` with **no**
`try/except`, and on success returns `statusCode 200` with a dict body. -/
def lambda_handler (predict : PredictOracle) (mem : Memory) (event : JValue) :
    Outcome JValue :=
  let message := jgetD event "message" (.jstr "")
  let session_id := jgetD event "session_id" (.jstr "default")
  match predict mem message with
  | .ok (resp, _) =>
    .returns (.jobj [("statusCode", .jnum 200),
      ("body", .jobj [("response", .jstr resp), ("session_id", session_id)])])
  | .error e => .raises e

end App

namespace DeployAws

open App

/-- Oracle for `DynamoDBChatMessageHistory(table_name=..., session_id=...)`:
the stored history for a session key. -/
def HistoryOracle := JValue → Memory

/-- `lambda_handler` in `deploy_aws.py` (lines 8-40): a fresh Bedrock
conversation over the DynamoDB history of the event's `session_id`
(default `"default"`), `conversation.predict` with **no** `try/except`,
and on success `statusCode 200` with `body = json.dumps({...})` —
a JSON **string**, not a dict. -/
def lambda_handler (predict : PredictOracle) (histories : HistoryOracle)
    (event : JValue) : Outcome JValue :=
  let session_id := jgetD event "session_id" (.jstr "default")
  let mem := histories session_id
  let user_input := jgetD event "message" (.jstr "")
  match predict mem user_input with
  | .ok (resp, _) =>
    .returns (.jobj [("statusCode", .jnum 200),
      ("body", .jstr (renderJ (.jobj [("response", .jstr resp), ("session_id", session_id)])))])
  | .error e => .raises e

end DeployAws

namespace StreamlitApp

/-- `ChatOpenAI(model_name=..., temperature=..., streaming=True)` — pure
configuration, recorded as data.  The slider's float temperature is
carried in tenths; it is never computed with. -/
structure ChatModelCfg where
  model_name : String
  temperature_tenths : Nat
  streaming : Bool
deriving DecidableEq, Repr

/-- `ConversationChain(llm=chat_model, memory=..., verbose=True)`. -/
structure ConversationCfg where
  llm : ChatModelCfg
  verbose : Bool
deriving DecidableEq, Repr

/-- `RetrievalQA.from_chain_type(llm=chat_model, chain_type="stuff", ...)`. -/
structure RetrievalCfg where
  llm : ChatModelCfg
  chain_type : String
deriving DecidableEq, Repr

/-- Widgets the script paints on the page, in order. -/
inductive Rendered where
  | title (s : String)
  | chatMessage (role content : String)
  | warning (s : String)
  | info (s : String)
  | markdown (s : String)
  | header (s : String)
  | errorBox (s : String)
  | caption (s : String)
  | divider

/-- One run of the Streamlit script is a function of the widget inputs and
session state.  `api_key` is the sidebar text box (empty when nothing was
entered — the script never reads a pre-existing `OPENAI_API_KEY`
environment variable). -/
structure StInput where
  api_key : String
  model_name : String
  temperature_tenths : Nat
  messages : List (String × String)
  chat_prompt : Option String
  rag_query : String
  data_dir_exists : Bool
  chroma_db_nonempty : Bool

/-- `initialize_langchain()` (lines 35-57): with a falsy key, a warning and
`(None, None)`; otherwise the configured chat model and conversation chain
(with a **fresh** `ConversationBufferMemory`). -/
def initialize_langchain (inp : StInput) :
    Option ChatModelCfg × Option ConversationCfg × List Rendered :=
  if inp.api_key.isEmpty then
    (none, none, [.warning "Please enter your OpenAI API key in the sidebar."])
  else
    let cm : ChatModelCfg := ⟨inp.model_name, inp.temperature_tenths, true⟩
    (some cm, some ⟨cm, true⟩, [])

/-- `initialize_rag()` (lines 60-92): `None` silently without key or data
directory; inside a `try:` it opens the persisted Chroma collection when
one exists (`chromaOpen` oracle) and otherwise shows an info box; any
exception becomes an error box and `None`. -/
def initialize_rag (inp : StInput) (chromaOpen : Except String App.VectorStore) :
    Option RetrievalCfg × List Rendered :=
  if inp.api_key.isEmpty then (none, [])
  else if inp.data_dir_exists = false then (none, [])
  else if inp.chroma_db_nonempty then
    match chromaOpen with
    | .error e => (none, [.errorBox ("Error initializing RAG: " ++ e)])
    | .ok _ =>
      match initialize_langchain inp with
      | (none, _, _) => (none, [])
      | (some cm, _, warns) => (some ⟨cm, "stuff"⟩, warns)
  else (none, [.info "No existing vector store found. Please add documents to the data folder."])

/-- The chat block (lines 95-123): on a submitted prompt, paint the user
message, build the chain, warn when it is missing, else call
`conversation.predict` with **no** `try/except` (an exception aborts the
script run). -/
def chatSection (inp : StInput) (predict : PredictOracle) :
    Except String (List Rendered) :=
  match inp.chat_prompt with
  | none => .ok []
  | some p =>
    let userR : List Rendered := [.chatMessage "user" p]
    match initialize_langchain inp with
    | (_, none, warns) =>
      .ok (userR ++ warns ++ [.warning "Please configure your API key to continue."])
    | (_, some _, warns) =>
      match predict Memory.empty (.jstr p) with
      | .ok (resp, _) => .ok (userR ++ warns ++ [.markdown resp])
      | .error e => .error e

/-- The document-QA block (lines 129-142): on a non-empty query, build the
retrieval chain; warn when unavailable, else `retrieval_qa.run` with
**no** `try/except`. -/
def ragSection (inp : StInput) (chromaOpen : Except String App.VectorStore)
    (ragRun : RetrievalOracle) : Except String (List Rendered) :=
  if inp.rag_query.isEmpty then .ok []
  else
    match initialize_rag inp chromaOpen with
    | (none, rends) =>
      .ok (rends ++ [.warning "Document retrieval is not available. Please check your API key and data folder."])
    | (some _, rends) =>
      match ragRun inp.rag_query with
      | .ok resp => .ok (rends ++ [.markdown resp])
      | .error e => .error e

/-- One top-to-bottom run of `streamlit_app.py`.  There is **no**
module-level API-key check: the script paints the page and only the two
interactive blocks can fail. -/
def script (inp : StInput) (predict : PredictOracle)
    (chromaOpen : Except String App.VectorStore) (ragRun : RetrievalOracle) :
    Outcome (List Rendered) :=
  let headR : List Rendered := [.title "🦜 LangChain Interactive Demo"]
  let histR : List Rendered := inp.messages.map (fun m => .chatMessage m.1 m.2)
  match chatSection inp predict with
  | .error e => .raises e
  | .ok chatR =>
    match ragSection inp chromaOpen ragRun with
    | .error e => .raises e
    | .ok ragR =>
      .returns (headR ++ histR ++ chatR ++
        [.divider, .header "📚 Document Question Answering"] ++ ragR ++
        [.divider, .caption "Powered by LangChain 🦜️🔗 and Streamlit"])

end StreamlitApp

/-! Concrete oracle instances, used by witnesses and counterexamples. -/

/-- An LLM that always answers `"model reply"` and leaves memory as given. -/
def predOk : PredictOracle := fun mem _ => .ok ("model reply", mem)

/-- An LLM call that raises. -/
def predBoom : PredictOracle := fun _ _ => .error "boom"

def runOk : RetrievalOracle := fun _ => .ok "answer"

def runBoom : RetrievalOracle := fun _ => .error "boom"

def loadOk : App.LoaderOracle := .ok []

def chromaOk : App.ChromaOracle := fun ts => .ok ⟨ts⟩

def chromaBoom : App.ChromaOracle := fun _ => .error "chroma down"

def histEmpty : DeployAws.HistoryOracle := fun _ => Memory.empty

def chromaOpenBoom : Except String App.VectorStore := .error "chroma down"

/-- The model text of a `/chat` outcome: the `response` field of a 200
body, `none` for error responses or escaped exceptions. -/
def chatModelOutput (o : Outcome (HResp × Memory)) : Option JValue :=
  match o with
  | .returns (.ok b, _) => jget b "response"
  | _ => none

/-- The HTTP status of a `/chat` outcome. -/
def chatStatus (o : Outcome (HResp × Memory)) : Option Nat :=
  match o with
  | .returns (r, _) => respStatus (.returns r)
  | .raises _ => none

/-- Whether a handler outcome is a normal return whose `body` field is a
JSON object (a record). -/
def bodyIsRecord (o : Outcome JValue) : Bool :=
  match o with
  | .returns v =>
    match jget v "body" with
    | some (.jobj _) => true
    | _ => false
  | .raises _ => false

/-- A Streamlit run with nothing in the API-key box but with a chat prompt
and a document question submitted. -/
def inpNoKey : StreamlitApp.StInput :=
  ⟨"", "gpt-3.5-turbo", 7, [], some "hello", "what is this", true, true⟩

/-- C5: `GET /health` always returns status `"healthy"` together with the
app version, with HTTP status 200, and never fails. -/
theorem C5_health_always_healthy :
    App.health_check =
      .returns (.ok (.jobj [("status", .jstr "healthy"), ("version", .jstr App.app_version)])) ∧
    respStatus App.health_check = some 200 :=
  ⟨rfl, rfl⟩

/-- C4: every successful `POST /chat` response carries the `session_id`
supplied in the request, unchanged by the handler. -/
theorem C4_chat_echoes_session_id (predict : PredictOracle) (mem mem' : Memory)
    (req : App.ChatRequest) (body : JValue)
    (hok : App.chat predict mem req = .returns (.ok body, mem')) :
    jget body "session_id" = some (App.jOfOpt req.session_id) := by
  cases hp : predict mem (.jstr req.message) with
  | ok pr =>
    simp only [App.chat, hp, Outcome.returns.injEq, Prod.mk.injEq, HResp.ok.injEq] at hok
    obtain ⟨hb, -⟩ := hok
    subst hb
    simp [jget, List.find?]
  | error e =>
    simp [App.chat, hp] at hok

/-- C4 witness. -/
theorem C4_chat_echoes_session_id_witness :
    jget (.jobj [("response", .jstr "model reply"), ("session_id", .jstr "s1")]) "session_id" =
      some (App.jOfOpt (some "s1")) :=
  C4_chat_echoes_session_id predOk Memory.empty Memory.empty ⟨"hi", some "s1"⟩
    (.jobj [("response", .jstr "model reply"), ("session_id", .jstr "s1")]) rfl

/-- C1: `POST /query` responds 400 exactly when the vector store was not
initialized; with an initialized store, a failing retrieval chain yields
500, never 400. -/
theorem C1_query_400_iff_no_store (run : RetrievalOracle) (st : App.AppState)
    (req : App.QueryRequest) :
    (respStatus (App.query run st req) = some 400 ↔ st.vector_store = none) ∧
    (∀ e, st.vector_store ≠ none → run req.query = .error e →
      App.query run st req = .returns (.httpError 500 e)) := by
  constructor
  · cases hvs : st.vector_store with
    | none => simp [App.query, hvs, respStatus]
    | some vs =>
      cases hr : run req.query with
      | ok r => simp [App.query, hvs, hr, respStatus]
      | error e => simp [App.query, hvs, hr, respStatus]
  · intro e hne hr
    cases hvs : st.vector_store with
    | none => exact absurd hvs hne
    | some vs => simp [App.query, hvs, hr]

/-- C1 witness: an initialized store plus a raising chain gives 500. -/
theorem C1_query_400_iff_no_store_witness :
    App.query runBoom ⟨Memory.empty, some ⟨[]⟩⟩ ⟨"q"⟩ = .returns (.httpError 500 "boom") :=
  (C1_query_400_iff_no_store runBoom ⟨Memory.empty, some ⟨[]⟩⟩ ⟨"q"⟩).2 "boom"
    (by simp) rfl

/-- C9: the `/chat` model output and status do not depend on `session_id`:
two requests with the same message against the same conversation memory
produce the same `response` field and the same status, whatever their
`session_id` values. -/
theorem C9_chat_output_ignores_session_id (predict : PredictOracle) (mem : Memory)
    (msg : String) (sid₁ sid₂ : Option String) :
    chatModelOutput (App.chat predict mem ⟨msg, sid₁⟩) =
      chatModelOutput (App.chat predict mem ⟨msg, sid₂⟩) ∧
    chatStatus (App.chat predict mem ⟨msg, sid₁⟩) =
      chatStatus (App.chat predict mem ⟨msg, sid₂⟩) := by
  cases hp : predict mem (.jstr msg) <;>
    simp [App.chat, hp, chatModelOutput, chatStatus, respStatus, jget, List.find?]

/-- C10: when the key is present, the data directory exists and the
vector-store block raises, the exception is swallowed: the server starts
with `vector_store = None` and every `POST /query` then returns 400. -/
theorem C10_vector_store_failure_swallowed (env : App.Env) (load : App.LoaderOracle)
    (chroma : App.ChromaOracle) (e : String)
    (hkey : App.keyPresent env = true) (hdata : env.data_dir_exists = true)
    (herr : App.vectorStoreTry load chroma = .error e) :
    App.moduleInit env load chroma = .started ⟨Memory.empty, none⟩ ∧
    ∀ run req, App.query run ⟨Memory.empty, none⟩ req =
      .returns (.httpError 400 "Vector store not initialized") := by
  refine ⟨?_, ?_⟩
  · simp [App.moduleInit, hkey, hdata, herr]
  · intro run req
    simp [App.query]

/-- C10 witness: a raising Chroma constructor. -/
theorem C10_vector_store_failure_swallowed_witness :
    App.moduleInit ⟨some "sk-test", true⟩ loadOk chromaBoom = .started ⟨Memory.empty, none⟩ ∧
    App.query runOk ⟨Memory.empty, none⟩ ⟨"q"⟩ =
      .returns (.httpError 400 "Vector store not initialized") :=
  ⟨(C10_vector_store_failure_swallowed ⟨some "sk-test", true⟩ loadOk chromaBoom
      "chroma down" rfl rfl rfl).1,
    (C10_vector_store_failure_swallowed ⟨some "sk-test", true⟩ loadOk chromaBoom
      "chroma down" rfl rfl rfl).2 runOk ⟨"q"⟩⟩

/-- C8: an omitted `session_id` behaves as the string `"default"`:
pydantic fills the default in `ChatRequest`, `/chat` then echoes
`"default"`, and both lambda handlers substitute and echo `"default"`
when the event lacks the key. -/
theorem C8_omitted_session_id_defaults
    (body event : JValue) (m resp : String) (predict : PredictOracle)
    (mem mem' : Memory) (histories : DeployAws.HistoryOracle) :
    (jget body "message" = some (.jstr m) → jget body "session_id" = none →
      App.parseChatRequest body = some ⟨m, some "default"⟩) ∧
    (predict mem (.jstr m) = .ok (resp, mem') →
      App.chat predict mem ⟨m, some "default"⟩ =
        .returns (.ok (.jobj [("response", .jstr resp), ("session_id", .jstr "default")]), mem')) ∧
    (jget event "session_id" = none →
      predict mem (jgetD event "message" (.jstr "")) = .ok (resp, mem') →
      App.lambda_handler predict mem event =
        .returns (.jobj [("statusCode", .jnum 200),
          ("body", .jobj [("response", .jstr resp), ("session_id", .jstr "default")])])) ∧
    (jget event "session_id" = none →
      predict (histories (.jstr "default")) (jgetD event "message" (.jstr "")) = .ok (resp, mem') →
      DeployAws.lambda_handler predict histories event =
        .returns (.jobj [("statusCode", .jnum 200),
          ("body", .jstr (renderJ (.jobj [("response", .jstr resp), ("session_id", .jstr "default")])))])) := by
  refine ⟨?_, ?_, ?_, ?_⟩
  · intro hm hs
    simp [App.parseChatRequest, hm, hs]
  · intro hp
    simp [App.chat, hp, App.jOfOpt]
  · intro hs hp
    simp only [jgetD] at hp
    simp [App.lambda_handler, jgetD, hs, hp]
  · intro hs hp
    simp only [jgetD] at hp
    simp [DeployAws.lambda_handler, jgetD, hs, hp]

/-- C8 witness: a body and an event both lacking `session_id`. -/
theorem C8_omitted_session_id_defaults_witness :
    App.parseChatRequest (.jobj [("message", .jstr "hi")]) = some ⟨"hi", some "default"⟩ ∧
    App.chat predOk Memory.empty ⟨"hi", some "default"⟩ =
      .returns (.ok (.jobj [("response", .jstr "model reply"), ("session_id", .jstr "default")]),
        Memory.empty) ∧
    App.lambda_handler predOk Memory.empty (.jobj [("message", .jstr "hi")]) =
      .returns (.jobj [("statusCode", .jnum 200),
        ("body", .jobj [("response", .jstr "model reply"), ("session_id", .jstr "default")])]) ∧
    DeployAws.lambda_handler predOk histEmpty (.jobj [("message", .jstr "hi")]) =
      .returns (.jobj [("statusCode", .jnum 200),
        ("body", .jstr (renderJ (.jobj [("response", .jstr "model reply"),
          ("session_id", .jstr "default")])))]) := by
  have T := C8_omitted_session_id_defaults (.jobj [("message", .jstr "hi")])
    (.jobj [("message", .jstr "hi")]) "hi" "model reply" predOk
    Memory.empty Memory.empty histEmpty
  exact ⟨T.1 rfl rfl, T.2.1 rfl, T.2.2.1 rfl rfl, T.2.2.2 rfl rfl⟩

/-- C3 counterexample: both serverless entry points let a raised exception
escape the handler uncaught, so "no handler lets an exception escape" is
false at this input. -/
theorem C3_counterexample :
    App.lambda_handler predBoom Memory.empty (.jobj [("message", .jstr "hi")]) = .raises "boom" ∧
    DeployAws.lambda_handler predBoom histEmpty (.jobj [("message", .jstr "hi")]) =
      .raises "boom" :=
  ⟨rfl, rfl⟩

/-- C3 amended: the HTTP route handlers `chat` and `query` catch every
exception at the outermost call and always return a response, converting
any raised exception — whatever its kind — into the generic
`HTTPException(500, str(e))`; the two serverless handlers, which wrap no
try/except, raise exactly when `conversation.predict` raises. -/
theorem C3_amended (predict : PredictOracle) (mem : Memory) (req : App.ChatRequest)
    (run : RetrievalOracle) (st : App.AppState) (qreq : App.QueryRequest)
    (event : JValue) (histories : DeployAws.HistoryOracle) (e : String) :
    (App.chat predict mem req).isReturns = true ∧
    (∀ e', predict mem (.jstr req.message) = .error e' →
      App.chat predict mem req = .returns (.httpError 500 e', mem)) ∧
    (App.query run st qreq).isReturns = true ∧
    (∀ e', st.vector_store ≠ none → run qreq.query = .error e' →
      App.query run st qreq = .returns (.httpError 500 e')) ∧
    (App.lambda_handler predict mem event = .raises e ↔
      predict mem (jgetD event "message" (.jstr "")) = .error e) ∧
    (DeployAws.lambda_handler predict histories event = .raises e ↔
      predict (histories (jgetD event "session_id" (.jstr "default")))
        (jgetD event "message" (.jstr "")) = .error e) := by
  refine ⟨?_, ?_, ?_, ?_, ?_, ?_⟩
  · cases hp : predict mem (.jstr req.message) <;>
      simp [App.chat, hp, Outcome.isReturns]
  · intro e' hp
    simp [App.chat, hp]
  · cases hvs : st.vector_store with
    | none => simp [App.query, hvs, Outcome.isReturns]
    | some vs =>
      cases hr : run qreq.query <;> simp [App.query, hvs, hr, Outcome.isReturns]
  · intro e' hne hr
    cases hvs : st.vector_store with
    | none => exact absurd hvs hne
    | some vs => simp [App.query, hvs, hr]
  · cases hp : predict mem (jgetD event "message" (.jstr "")) <;>
      simp [App.lambda_handler, hp]
  · cases hp : predict (histories (jgetD event "session_id" (.jstr "default")))
        (jgetD event "message" (.jstr "")) <;>
      simp [DeployAws.lambda_handler, hp]

/-- C3 amended witness: a raising LLM and a raising retrieval chain. -/
theorem C3_amended_witness :
    (App.chat predBoom Memory.empty ⟨"hi", some "s1"⟩).isReturns = true ∧
    App.chat predBoom Memory.empty ⟨"hi", some "s1"⟩ =
      .returns (.httpError 500 "boom", Memory.empty) ∧
    (App.query runBoom ⟨Memory.empty, some ⟨[]⟩⟩ ⟨"q"⟩).isReturns = true ∧
    App.query runBoom ⟨Memory.empty, some ⟨[]⟩⟩ ⟨"q"⟩ = .returns (.httpError 500 "boom") ∧
    (App.lambda_handler predBoom Memory.empty (.jobj [("message", .jstr "hi")]) =
        .raises "boom" ↔
      predBoom Memory.empty
        (jgetD (.jobj [("message", .jstr "hi")]) "message" (.jstr "")) = .error "boom") ∧
    (DeployAws.lambda_handler predBoom histEmpty (.jobj [("message", .jstr "hi")]) =
        .raises "boom" ↔
      predBoom (histEmpty (jgetD (.jobj [("message", .jstr "hi")]) "session_id" (.jstr "default")))
        (jgetD (.jobj [("message", .jstr "hi")]) "message" (.jstr "")) = .error "boom") := by
  have T := C3_amended predBoom Memory.empty ⟨"hi", some "s1"⟩ runBoom
    ⟨Memory.empty, some ⟨[]⟩⟩ ⟨"q"⟩ (.jobj [("message", .jstr "hi")]) histEmpty "boom"
  exact ⟨T.1, T.2.1 "boom" rfl, T.2.2.1, T.2.2.2.1 "boom" (by simp) rfl,
    T.2.2.2.2.1, T.2.2.2.2.2⟩

/-- C6 counterexample: on a successful prediction the `deploy_aws` handler
returns a `body` that is a JSON **string** (`json.dumps`), not a record,
so "the body is a record" fails at this input. -/
theorem C6_counterexample :
    bodyIsRecord (DeployAws.lambda_handler predOk histEmpty
      (.jobj [("message", .jstr "hi"), ("session_id", .jstr "s1")])) = false :=
  rfl

/-- C6 amended: on a successful prediction both handlers return
`statusCode 200`; the `app.py` handler's body is a record
`{response, session_id}`, while the `deploy_aws` handler's body is the
JSON-serialized **string** of such a record; in both, `session_id` is the
event's value (or `"default"` when absent). -/
theorem C6_amended (predict : PredictOracle) (mem mem' mem₂' : Memory) (event : JValue)
    (resp resp₂ : String) (histories : DeployAws.HistoryOracle)
    (h1 : predict mem (jgetD event "message" (.jstr "")) = .ok (resp, mem'))
    (h2 : predict (histories (jgetD event "session_id" (.jstr "default")))
            (jgetD event "message" (.jstr "")) = .ok (resp₂, mem₂')) :
    App.lambda_handler predict mem event =
      .returns (.jobj [("statusCode", .jnum 200),
        ("body", .jobj [("response", .jstr resp),
          ("session_id", jgetD event "session_id" (.jstr "default"))])]) ∧
    DeployAws.lambda_handler predict histories event =
      .returns (.jobj [("statusCode", .jnum 200),
        ("body", .jstr (renderJ (.jobj [("response", .jstr resp₂),
          ("session_id", jgetD event "session_id" (.jstr "default"))])))]) := by
  refine ⟨?_, ?_⟩
  · simp [App.lambda_handler, h1]
  · simp [DeployAws.lambda_handler, h2]

/-- C6 amended witness. -/
theorem C6_amended_witness :
    App.lambda_handler predOk Memory.empty
        (.jobj [("message", .jstr "hi"), ("session_id", .jstr "s1")]) =
      .returns (.jobj [("statusCode", .jnum 200),
        ("body", .jobj [("response", .jstr "model reply"), ("session_id", .jstr "s1")])]) ∧
    DeployAws.lambda_handler predOk histEmpty
        (.jobj [("message", .jstr "hi"), ("session_id", .jstr "s1")]) =
      .returns (.jobj [("statusCode", .jnum 200),
        ("body", .jstr (renderJ (.jobj [("response", .jstr "model reply"),
          ("session_id", .jstr "s1")])))]) := by
  have T := C6_amended predOk Memory.empty Memory.empty Memory.empty
    (.jobj [("message", .jstr "hi"), ("session_id", .jstr "s1")])
    "model reply" "model reply" histEmpty rfl rfl
  simpa [jgetD, jget, List.find?] using T

/-- C2 counterexample: with no API key entered anywhere, a full run of the
Streamlit front-end — which requires the external model provider —
completes normally (the process starts and serves the page), so "a fatal
startup error, for every front-end" is false. -/
theorem C2_counterexample :
    (StreamlitApp.script inpNoKey predBoom chromaOpenBoom runBoom).isReturns = true :=
  rfl

/-- C2 amended: a falsy `OPENAI_API_KEY` makes the FastAPI module raise at
import, before it can serve; the Streamlit front-end, however, starts
regardless and only emits UI warnings when interaction needs the key. -/
theorem C2_amended (env : App.Env) (load : App.LoaderOracle) (chroma : App.ChromaOracle)
    (inp : StreamlitApp.StInput) (predict : PredictOracle)
    (chromaOpen : Except String App.VectorStore) (ragRun : RetrievalOracle)
    (hkey : App.keyPresent env = false) (hsk : inp.api_key = "") :
    App.moduleInit env load chroma =
      .failed_to_start "OPENAI_API_KEY environment variable is not set" ∧
    (StreamlitApp.script inp predict chromaOpen ragRun).isReturns = true := by
  refine ⟨by simp [App.moduleInit, hkey], ?_⟩
  have hempty : inp.api_key.isEmpty = true := by rw [hsk]; rfl
  have hchat : ∃ r, StreamlitApp.chatSection inp predict = .ok r := by
    cases hcp : inp.chat_prompt with
    | none => exact ⟨[], by simp [StreamlitApp.chatSection, hcp]⟩
    | some p =>
      simp only [StreamlitApp.chatSection, hcp, StreamlitApp.initialize_langchain, hempty,
        if_true]
      exact ⟨_, rfl⟩
  have hrag : ∃ r, StreamlitApp.ragSection inp chromaOpen ragRun = .ok r := by
    by_cases hq : inp.rag_query.isEmpty = true
    · exact ⟨[], by simp [StreamlitApp.ragSection, hq]⟩
    · simp only [StreamlitApp.ragSection, hq, if_false, StreamlitApp.initialize_rag, hempty,
        if_true]
      exact ⟨_, rfl⟩
  obtain ⟨r1, h1⟩ := hchat
  obtain ⟨r2, h2⟩ := hrag
  simp [StreamlitApp.script, h1, h2, Outcome.isReturns]

/-- C2 amended witness. -/
theorem C2_amended_witness :
    App.moduleInit ⟨none, true⟩ loadOk chromaOk =
      .failed_to_start "OPENAI_API_KEY environment variable is not set" ∧
    (StreamlitApp.script inpNoKey predBoom chromaOpenBoom runBoom).isReturns = true :=
  C2_amended ⟨none, true⟩ loadOk chromaOk inpNoKey predBoom chromaOpenBoom runBoom rfl rfl

/-- C7 counterexample: a two-character document is split into a single
chunk of length 2, so "each chunk is a substring of the configured fixed
size (1000 characters)" is false at this input. -/
theorem C7_counterexample :
    ((App.splitText ['a', 'b']).all (fun c => c.length == App.chunk_size)) = false := by
  rw [App.splitText]
  norm_num [App.chunk_size]

theorem splitText_ne_nil (s : List Char) : App.splitText s ≠ [] := by
  rw [App.splitText]
  split <;> simp

theorem head?_splitText (s : List Char) :
    (App.splitText s).head? = some (s.take App.chunk_size) := by
  rw [App.splitText]
  split
  · next h => simp [List.take_of_length_le h]
  · simp

theorem splitText_chunks (s : List Char) :
    ∀ c ∈ App.splitText s, (∃ i, c = (s.drop i).take c.length) ∧ c.length ≤ App.chunk_size := by
  induction s using App.splitText.induct with
  | case1 s h =>
    intro c hc
    rw [App.splitText, dif_pos h] at hc
    simp only [List.mem_singleton] at hc
    subst hc
    exact ⟨⟨0, by simp⟩, h⟩
  | case2 s h ih =>
    intro c hc
    rw [App.splitText, dif_neg h] at hc
    rcases List.mem_cons.mp hc with hc | hc
    · subst hc
      have hlen : (s.take App.chunk_size).length = App.chunk_size := by
        simp [List.length_take]
        omega
      refine ⟨⟨0, ?_⟩, by omega⟩
      rw [hlen]
      simp
    · obtain ⟨⟨j, hj⟩, hle⟩ := ih c hc
      refine ⟨⟨App.chunk_size - App.chunk_overlap + j, ?_⟩, hle⟩
      rw [List.drop_drop] at hj
      exact hj

theorem splitText_chain (s : List Char) :
    List.Chain' (fun a b => a.length = App.chunk_size ∧
      a.drop (App.chunk_size - App.chunk_overlap) = b.take App.chunk_overlap)
      (App.splitText s) := by
  induction s using App.splitText.induct with
  | case1 s h =>
    rw [App.splitText, dif_pos h]
    simp
  | case2 s h ih =>
    rw [App.splitText, dif_neg h]
    rw [List.chain'_cons']
    refine ⟨?_, ih⟩
    intro b hb
    rw [head?_splitText] at hb
    have hb' : b = (s.drop (App.chunk_size - App.chunk_overlap)).take App.chunk_size := by
      cases hb
      rfl
    subst hb'
    constructor
    · simp [List.length_take]
      omega
    · rw [List.drop_take, List.take_take]
      have h1 : App.chunk_size - (App.chunk_size - App.chunk_overlap) = App.chunk_overlap := by
        simp [App.chunk_size, App.chunk_overlap]
      have h2 : min App.chunk_overlap App.chunk_size = App.chunk_overlap := by
        simp [App.chunk_size, App.chunk_overlap]
      rw [h1, h2]

/-- C7 amended: under the spec-modelled fixed-window splitter
(`chunk_size = 1000`, `chunk_overlap = 100`), every chunk is a contiguous
substring of its document of **at most** 1000 characters, every chunk
except possibly the last has exactly 1000, and each pair of consecutive
chunks shares exactly the 100-character overlap (the last 100 characters
of one are the first 100 of the next). -/
theorem C7_amended (s : List Char) :
    (∀ c ∈ App.splitText s, (∃ i, c = (s.drop i).take c.length) ∧ c.length ≤ App.chunk_size) ∧
    List.Chain' (fun a b => a.length = App.chunk_size ∧
      a.drop (App.chunk_size - App.chunk_overlap) = b.take App.chunk_overlap)
      (App.splitText s) :=
  ⟨splitText_chunks s, splitText_chain s⟩

/-- C7 amended witness. -/
theorem C7_amended_witness :
    ((∃ i, (['a', 'b'] : List Char) =
        ((['a', 'b'] : List Char).drop i).take (['a', 'b'] : List Char).length) ∧
      (['a', 'b'] : List Char).length ≤ App.chunk_size) ∧
    List.Chain' (fun a b => a.length = App.chunk_size ∧
      a.drop (App.chunk_size - App.chunk_overlap) = b.take App.chunk_overlap)
      (App.splitText ['a', 'b']) :=
  ⟨(C7_amended ['a', 'b']).1 ['a', 'b']
      (by rw [App.splitText]; norm_num [App.chunk_size]),
    (C7_amended ['a', 'b']).2⟩

end LangChainRepo
